import Mathlib

/-!
Verification development for the TORCS SAC agent
(repository kivancguckiran/torcs-pesla-rl-agent).

The definitions below are a shallow embedding of the Python sources:

* `src/algorithms/sac/agent.py` — `SACAgent` and `SACAgentLSTM`
  (select_action, step, update_model, train loop gate, load_params,
  write_log);
* `src/pesla/network.py` — `MLP.init_lstm_states` and
  `TanhGaussianDistParams.forward`;
* `src/examples/torcs/sac-lstm.py` — the `hyper_params` configuration.

Tensors are modelled value-wise: a vector is a `List ℚ`, a batched scalar
tensor is a `List ℚ`, a batched vector tensor is a `List (List ℚ)`.
External collaborators (the differentiable networks, the optimizers, the
torch special functions exp/log/tanh and the Gaussian log-density) are
opaque function parameters, exactly as the spec declares them out of
scope.  Gradient/optimizer steps are therefore opaque maps from (current
parameters, loss value) to new parameters: the claims under study only
concern which parameters are stepped, with which loss, and when.
-/

/-- A vector of rationals: one tensor axis flattened value-wise. -/
abbrev Vec := List ℚ

/-- Mean of a list of rationals (torch `.mean()`; empty input gives 0). -/
def qmean (xs : List ℚ) : ℚ := xs.sum / xs.length

/-- Mean-squared error between two equally long lists (torch `F.mse_loss`). -/
def mseLoss (pred target : List ℚ) : ℚ :=
  qmean (List.zipWith (fun a b => (a - b) ^ 2) pred target)

/-- Three-list zipWith, used for elementwise tensor expressions. -/
def zip3With (f : α → β → γ → δ) : List α → List β → List γ → List δ
  | a :: as, b :: bs, c :: cs => f a b c :: zip3With f as bs cs
  | _, _, _ => []

/-- Mean of the squares of every element of a batched vector tensor
(torch `t.pow(2).mean()`). -/
def meanSq (vs : List Vec) : ℚ :=
  qmean ((vs.map (fun v => v.map (fun x => x * x))).flatten)

/-- Per-row sum of squares followed by the batch mean
(torch `t.pow(2).sum(dim=-1).mean()`). -/
def sumSqLastMean (vs : List Vec) : ℚ :=
  qmean (vs.map (fun v => (v.map (fun x => x * x)).sum))

/-- Modelled from the spec: `algorithms.common.helper_functions.soft_update`
is imported by `agent.py` but its module is not among the sources.  The
spec states the soft (Polyak) target update as
`θ_target ← τ·θ_V + (1-τ)·θ_target`, elementwise for every parameter
tensor. -/
def soft_update (tau : ℚ) (src target : Vec) : Vec :=
  List.zipWith (fun s t => tau * s + (1 - tau) * t) src target

/-- Output tuple of the flat actor forward pass
(`TanhGaussianDistParams.forward`): sampled action, log-probability
(scalar after the keepdim sum), pre-tanh sample, mean and std. -/
structure ActorOut where
  action : Vec
  logProb : ℚ
  preTanh : Vec
  mu : Vec
  std : Vec
deriving DecidableEq

/-- The hyper-parameters read by `SACAgent.update_model` and
`SACAgentLSTM.update_model`. -/
structure SacHyper where
  GAMMA : ℚ
  TAU : ℚ
  W_ENTROPY : ℚ
  W_MEAN_REG : ℚ
  W_STD_REG : ℚ
  W_PRE_ACTIVATION_REG : ℚ
  POLICY_UPDATE_FREQ : ℕ
  AUTO_ENTROPY_TUNING : Bool
  BATCH_SIZE : ℕ
  STEP_SIZE : ℕ

/-- Opaque external collaborators of the flat agent: the five function
approximators (each a function of its own parameter vector) and the five
independent optimizer steps, plus the torch `exp` used for
`log_alpha.exp()`. -/
structure SacNets where
  actorFwd : Vec → Vec → ActorOut
  vfFwd : Vec → Vec → ℚ
  vfTargetFwd : Vec → Vec → ℚ
  qf1Fwd : Vec → Vec → Vec → ℚ
  qf2Fwd : Vec → Vec → Vec → ℚ
  actorOptimStep : Vec → ℚ → Vec
  vfOptimStep : Vec → ℚ → Vec
  qf1OptimStep : Vec → ℚ → Vec
  qf2OptimStep : Vec → ℚ → Vec
  alphaOptimStep : ℚ → ℚ → ℚ
  expFn : ℚ → ℚ

/-- The mutable agent state touched by `update_model`: the five parameter
vectors, `log_alpha` and the `update_step` counter. -/
structure SacState where
  actorP : Vec
  vfP : Vec
  vfTargetP : Vec
  qf1P : Vec
  qf2P : Vec
  logAlpha : ℚ
  updateStep : ℕ
deriving DecidableEq

/-- A sampled batch: column tensors for state, action, reward, next state
and done (the recurrent variant flattens the `(batch, step)` axes into one
list). -/
structure Batch where
  states : List Vec
  actions : List Vec
  rewards : List ℚ
  nextStates : List Vec
  dones : List ℚ
deriving DecidableEq

/-- The five scalar losses returned by `update_model`:
`(actor, qf_1, qf_2, vf, alpha)`. -/
structure Losses where
  actor : ℚ
  qf1 : ℚ
  qf2 : ℚ
  vf : ℚ
  alpha : ℚ
deriving DecidableEq

/-- The entropy block shared by both `update_model` variants
(`agent.py` lines 170-183 and 563-576): when auto tuning is on, compute
`alpha_loss = (-log_alpha * (log_prob + target_entropy).detach()).mean()`,
step the alpha optimizer and set `alpha = log_alpha.exp()`; otherwise the
loss is `torch.zeros(1)`, `log_alpha` is untouched and `alpha` is the
fixed `W_ENTROPY`.  Returns `(alpha_loss, new log_alpha, alpha)`. -/
def sac_alpha_block (tuning : Bool) (wEntropy targetEntropy logAlpha : ℚ)
    (alphaStep : ℚ → ℚ → ℚ) (expFn : ℚ → ℚ) (logProbs : List ℚ) : ℚ × ℚ × ℚ :=
  if tuning then
    let alphaLoss := qmean (logProbs.map (fun lp => -logAlpha * (lp + targetEntropy)))
    let logAlpha2 := alphaStep logAlpha alphaLoss
    (alphaLoss, logAlpha2, expFn logAlpha2)
  else
    (0, logAlpha, wEntropy)

/-- The bootstrap target shared by both `update_model` variants:
`masks = 1 - dones`, `q_target = rewards + GAMMA * v_target * masks`
(`agent.py` lines 186-190 and 579-586; the `.view` reshapes of the
recurrent variant are value-wise identities in this flattened model). -/
def bootstrap_q_target (gamma : ℚ) (rewards vTargetNext dones : List ℚ) : List ℚ :=
  let masks := dones.map (fun d => 1 - d)
  zip3With (fun r v m => r + gamma * v * m) rewards vTargetNext masks

/-- The actor loss shared by both `update_model` variants
(`agent.py` lines 217-231 and 617-631): `advantage = q_pred - v_pred`,
base loss `(alpha * log_prob - advantage).mean()`, plus — iff the action
space is continuous — the three squared regularization terms on the mean,
the std and the pre-activation value. -/
def sac_actor_loss (isDiscrete : Bool) (wMean wStd wPre alpha : ℚ)
    (logProbs qPred vPred : List ℚ) (mus stds preTanhs : List Vec) : ℚ :=
  let advantage := List.zipWith (fun q v => q - v) qPred vPred
  let base := qmean (List.zipWith (fun lp adv => alpha * lp - adv) logProbs advantage)
  if isDiscrete then base
  else base + (wMean * meanSq mus + wStd * meanSq stds + wPre * sumSqLastMean preTanhs)

/-- Actor resample on the batch states
(`new_actions, log_prob, pre_tanh_value, mu, std = self.actor(states)`,
`agent.py` line 168), applied per batch row. -/
def flatOuts (nets : SacNets) (s : SacState) (b : Batch) : List ActorOut :=
  b.states.map (nets.actorFwd s.actorP)

/-- The resampled log-probabilities of the batch. -/
def flatLogProbs (nets : SacNets) (s : SacState) (b : Batch) : List ℚ :=
  (flatOuts nets s b).map (·.logProb)

/-- Entropy block of the flat `update_model`. -/
def flatAlphaBlock (hp : SacHyper) (targetEntropy : ℚ) (nets : SacNets)
    (s : SacState) (b : Batch) : ℚ × ℚ × ℚ :=
  sac_alpha_block hp.AUTO_ENTROPY_TUNING hp.W_ENTROPY targetEntropy s.logAlpha
    nets.alphaOptimStep nets.expFn (flatLogProbs nets s b)

/-- The entropy coefficient used by the value and actor losses of the flat
`update_model`. -/
def flatAlpha (hp : SacHyper) (targetEntropy : ℚ) (nets : SacNets)
    (s : SacState) (b : Batch) : ℚ :=
  (flatAlphaBlock hp targetEntropy nets s b).2.2

/-- Q1 prediction on the stored actions (`q_1_pred = self.qf_1(states, actions)`). -/
def flatQ1Pred (nets : SacNets) (s : SacState) (b : Batch) : List ℚ :=
  List.zipWith (nets.qf1Fwd s.qf1P) b.states b.actions

/-- Q2 prediction on the stored actions (`q_2_pred = self.qf_2(states, actions)`). -/
def flatQ2Pred (nets : SacNets) (s : SacState) (b : Batch) : List ℚ :=
  List.zipWith (nets.qf2Fwd s.qf2P) b.states b.actions

/-- V-target prediction on the next states (`v_target = self.vf_target(next_states)`). -/
def flatVTargetNext (nets : SacNets) (s : SacState) (b : Batch) : List ℚ :=
  b.nextStates.map (nets.vfTargetFwd s.vfTargetP)

/-- The bootstrap target of the flat `update_model`
(`q_target = rewards + GAMMA * v_target * masks`). -/
def flatQTarget (hp : SacHyper) (nets : SacNets) (s : SacState) (b : Batch) : List ℚ :=
  bootstrap_q_target hp.GAMMA b.rewards (flatVTargetNext nets s b) b.dones

/-- Q1 loss (`qf_1_loss = F.mse_loss(q_1_pred, q_target.detach())`;
the detach is a stop-gradient and leaves the value unchanged). -/
def flatQf1Loss (hp : SacHyper) (nets : SacNets) (s : SacState) (b : Batch) : ℚ :=
  mseLoss (flatQ1Pred nets s b) (flatQTarget hp nets s b)

/-- Q2 loss (`qf_2_loss = F.mse_loss(q_2_pred, q_target.detach())`). -/
def flatQf2Loss (hp : SacHyper) (nets : SacNets) (s : SacState) (b : Batch) : ℚ :=
  mseLoss (flatQ2Pred nets s b) (flatQTarget hp nets s b)

/-- V prediction on the batch states (`v_pred = self.vf(states)`). -/
def flatVPred (nets : SacNets) (s : SacState) (b : Batch) : List ℚ :=
  b.states.map (nets.vfFwd s.vfP)

/-- The resampled actions of the batch. -/
def flatNewActions (nets : SacNets) (s : SacState) (b : Batch) : List Vec :=
  (flatOuts nets s b).map (·.action)

/-- Twin-minimum Q on the resampled actions
(`q_pred = torch.min(self.qf_1(states, new_actions), self.qf_2(states, new_actions))`). -/
def flatQPred (nets : SacNets) (s : SacState) (b : Batch) : List ℚ :=
  List.zipWith min
    (List.zipWith (nets.qf1Fwd s.qf1P) b.states (flatNewActions nets s b))
    (List.zipWith (nets.qf2Fwd s.qf2P) b.states (flatNewActions nets s b))

/-- V loss (`v_target = q_pred - alpha * log_prob;
vf_loss = F.mse_loss(v_pred, v_target.detach())`). -/
def flatVfLoss (hp : SacHyper) (targetEntropy : ℚ) (nets : SacNets)
    (s : SacState) (b : Batch) : ℚ :=
  mseLoss (flatVPred nets s b)
    (List.zipWith (fun q lp => q - flatAlpha hp targetEntropy nets s b * lp)
      (flatQPred nets s b) (flatLogProbs nets s b))

/-- The actor loss of the flat `update_model` on its gated invocations. -/
def flatActorLoss (hp : SacHyper) (targetEntropy : ℚ) (isDiscrete : Bool)
    (nets : SacNets) (s : SacState) (b : Batch) : ℚ :=
  sac_actor_loss isDiscrete hp.W_MEAN_REG hp.W_STD_REG hp.W_PRE_ACTIVATION_REG
    (flatAlpha hp targetEntropy nets s b)
    (flatLogProbs nets s b) (flatQPred nets s b) (flatVPred nets s b)
    ((flatOuts nets s b).map (·.mu)) ((flatOuts nets s b).map (·.std))
    ((flatOuts nets s b).map (·.preTanh))

/-- Embedding of `SACAgent.update_model` (`agent.py` lines 162-249).
`update_step` is incremented first; the alpha block, the two Q losses and
the V loss are computed and their three optimizers stepped on every
invocation; the actor step together with the soft update of the V target
runs only when the post-increment `update_step` is divisible by
`POLICY_UPDATE_FREQ`, otherwise the reported actor loss is
`torch.zeros(1)`.  The soft update reads the post-step V parameters, as in
the source where `vf_optimizer.step()` precedes `soft_update`. -/
def update_model (hp : SacHyper) (targetEntropy : ℚ) (isDiscrete : Bool)
    (nets : SacNets) (s : SacState) (b : Batch) : SacState × Losses :=
  let updateStep := s.updateStep + 1
  let ab := flatAlphaBlock hp targetEntropy nets s b
  let qf1P2 := nets.qf1OptimStep s.qf1P (flatQf1Loss hp nets s b)
  let qf2P2 := nets.qf2OptimStep s.qf2P (flatQf2Loss hp nets s b)
  let vfP2 := nets.vfOptimStep s.vfP (flatVfLoss hp targetEntropy nets s b)
  if updateStep % hp.POLICY_UPDATE_FREQ = 0 then
    let aLoss := flatActorLoss hp targetEntropy isDiscrete nets s b
    (⟨nets.actorOptimStep s.actorP aLoss, vfP2,
      soft_update hp.TAU vfP2 s.vfTargetP, qf1P2, qf2P2, ab.2.1, updateStep⟩,
     ⟨aLoss, flatQf1Loss hp nets s b, flatQf2Loss hp nets s b,
      flatVfLoss hp targetEntropy nets s b, ab.1⟩)
  else
    (⟨s.actorP, vfP2, s.vfTargetP, qf1P2, qf2P2, ab.2.1, updateStep⟩,
     ⟨0, flatQf1Loss hp nets s b, flatQf2Loss hp nets s b,
      flatVfLoss hp targetEntropy nets s b, ab.1⟩)

/-- Iterated invocations of the flat `update_model` over a list of sampled
batches, threading the agent state. -/
def update_model_iter (hp : SacHyper) (targetEntropy : ℚ) (isDiscrete : Bool)
    (nets : SacNets) : SacState → List Batch → SacState
  | s, [] => s
  | s, b :: bs => update_model_iter hp targetEntropy isDiscrete nets
      (update_model hp targetEntropy isDiscrete nets s b).1 bs

/-- Embedding of `MLP.init_lstm_states` (`network.py` lines 102-106):
both the hidden and the cell state are fresh zero tensors of shape
`(lstm_layer_size, batch_size, lstm_size)`, modelled flattened. -/
def init_lstm_states (lstmLayerSize batchSize lstmSize : ℕ) : Vec × Vec :=
  (List.replicate (lstmLayerSize * batchSize * lstmSize) 0,
   List.replicate (lstmLayerSize * batchSize * lstmSize) 0)

/-- Output tuple of the recurrent actor forward pass over a
`(batch, step)` block, flattened: per-element sampled actions,
log-probabilities, pre-tanh samples, means, stds, and the final
`(hidden, cell)` pair. -/
structure ActorSeqOut where
  actions : List Vec
  logProbs : List ℚ
  preTanh : List Vec
  mus : List Vec
  stds : List Vec
  hxOut : Vec
  cxOut : Vec
deriving DecidableEq

/-- Which approximator a recurrent forward call goes to. -/
inductive NetId
  | actor
  | qf1
  | qf2
  | vfTarget
  | vf
deriving DecidableEq

/-- One recurrent forward call together with the `(hidden, cell)` pair it
received as argument. -/
structure FwdCall where
  net : NetId
  hx : Vec
  cx : Vec
deriving DecidableEq

/-- Opaque external collaborators of the recurrent agent.  Every forward
takes the batch/step sizes and a `(hidden, cell)` pair and returns its
output together with the final recurrent state (which `update_model`
discards).  The hidden-state shape parameters of the actor are carried
here because `update_model` always calls `self.actor.init_lstm_states`. -/
structure SacNetsRec where
  lstmLayerSize : ℕ
  lstmSize : ℕ
  actorFwd : Vec → List Vec → ℕ → ℕ → Vec → Vec → ActorSeqOut
  vfFwd : Vec → List Vec → ℕ → ℕ → Vec → Vec → List ℚ × Vec × Vec
  vfTargetFwd : Vec → List Vec → ℕ → ℕ → Vec → Vec → List ℚ × Vec × Vec
  qf1Fwd : Vec → List Vec → List Vec → ℕ → ℕ → Vec → Vec → List ℚ × Vec × Vec
  qf2Fwd : Vec → List Vec → List Vec → ℕ → ℕ → Vec → Vec → List ℚ × Vec × Vec
  actorOptimStep : Vec → ℚ → Vec
  vfOptimStep : Vec → ℚ → Vec
  qf1OptimStep : Vec → ℚ → Vec
  qf2OptimStep : Vec → ℚ → Vec
  alphaOptimStep : ℚ → ℚ → ℚ
  expFn : ℚ → ℚ

/-- The `(hidden, cell)` pair produced by
`self.actor.init_lstm_states(batch_size)`, re-evaluated before every
forward call of the recurrent `update_model`; each evaluation yields the
same fresh zero pair. -/
def recH0 (nets : SacNetsRec) (batchSize : ℕ) : Vec × Vec :=
  init_lstm_states nets.lstmLayerSize batchSize nets.lstmSize

/-- Actor resample of the recurrent `update_model` (`agent.py` line 561). -/
def recAOut (hp : SacHyper) (nets : SacNetsRec) (s : SacState) (b : Batch) : ActorSeqOut :=
  nets.actorFwd s.actorP b.states hp.BATCH_SIZE hp.STEP_SIZE
    (recH0 nets hp.BATCH_SIZE).1 (recH0 nets hp.BATCH_SIZE).2

/-- Entropy block of the recurrent `update_model`. -/
def recAlphaBlock (hp : SacHyper) (targetEntropy : ℚ) (nets : SacNetsRec)
    (s : SacState) (b : Batch) : ℚ × ℚ × ℚ :=
  sac_alpha_block hp.AUTO_ENTROPY_TUNING hp.W_ENTROPY targetEntropy s.logAlpha
    nets.alphaOptimStep nets.expFn (recAOut hp nets s b).logProbs

/-- The entropy coefficient used by the recurrent value and actor losses. -/
def recAlpha (hp : SacHyper) (targetEntropy : ℚ) (nets : SacNetsRec)
    (s : SacState) (b : Batch) : ℚ :=
  (recAlphaBlock hp targetEntropy nets s b).2.2

/-- Q1 prediction on the stored actions, fresh zero recurrent state
(`agent.py` lines 580-581). -/
def recQ1Pred (hp : SacHyper) (nets : SacNetsRec) (s : SacState) (b : Batch) : List ℚ :=
  (nets.qf1Fwd s.qf1P b.states b.actions hp.BATCH_SIZE hp.STEP_SIZE
    (recH0 nets hp.BATCH_SIZE).1 (recH0 nets hp.BATCH_SIZE).2).1

/-- Q2 prediction on the stored actions, fresh zero recurrent state
(`agent.py` lines 582-583). -/
def recQ2Pred (hp : SacHyper) (nets : SacNetsRec) (s : SacState) (b : Batch) : List ℚ :=
  (nets.qf2Fwd s.qf2P b.states b.actions hp.BATCH_SIZE hp.STEP_SIZE
    (recH0 nets hp.BATCH_SIZE).1 (recH0 nets hp.BATCH_SIZE).2).1

/-- V-target prediction on the next states, fresh zero recurrent state
(`agent.py` lines 584-585). -/
def recVTargetNext (hp : SacHyper) (nets : SacNetsRec) (s : SacState) (b : Batch) : List ℚ :=
  (nets.vfTargetFwd s.vfTargetP b.nextStates hp.BATCH_SIZE hp.STEP_SIZE
    (recH0 nets hp.BATCH_SIZE).1 (recH0 nets hp.BATCH_SIZE).2).1

/-- The recurrent bootstrap target (`agent.py` line 586; the `.view`
reshapes are value-wise identities here). -/
def recQTarget (hp : SacHyper) (nets : SacNetsRec) (s : SacState) (b : Batch) : List ℚ :=
  bootstrap_q_target hp.GAMMA b.rewards (recVTargetNext hp nets s b) b.dones

/-- Recurrent Q1 loss (`agent.py` line 587). -/
def recQf1Loss (hp : SacHyper) (nets : SacNetsRec) (s : SacState) (b : Batch) : ℚ :=
  mseLoss (recQ1Pred hp nets s b) (recQTarget hp nets s b)

/-- Recurrent Q2 loss (`agent.py` line 588). -/
def recQf2Loss (hp : SacHyper) (nets : SacNetsRec) (s : SacState) (b : Batch) : ℚ :=
  mseLoss (recQ2Pred hp nets s b) (recQTarget hp nets s b)

/-- V prediction on the batch states, fresh zero recurrent state
(`agent.py` lines 591-592). -/
def recVPred (hp : SacHyper) (nets : SacNetsRec) (s : SacState) (b : Batch) : List ℚ :=
  (nets.vfFwd s.vfP b.states hp.BATCH_SIZE hp.STEP_SIZE
    (recH0 nets hp.BATCH_SIZE).1 (recH0 nets hp.BATCH_SIZE).2).1

/-- Twin-minimum Q on the resampled actions, each twin with a fresh zero
recurrent state (`agent.py` lines 593-597). -/
def recQPred (hp : SacHyper) (nets : SacNetsRec) (s : SacState) (b : Batch) : List ℚ :=
  List.zipWith min
    ((nets.qf1Fwd s.qf1P b.states (recAOut hp nets s b).actions hp.BATCH_SIZE
      hp.STEP_SIZE (recH0 nets hp.BATCH_SIZE).1 (recH0 nets hp.BATCH_SIZE).2).1)
    ((nets.qf2Fwd s.qf2P b.states (recAOut hp nets s b).actions hp.BATCH_SIZE
      hp.STEP_SIZE (recH0 nets hp.BATCH_SIZE).1 (recH0 nets hp.BATCH_SIZE).2).1)

/-- Recurrent V loss (`agent.py` lines 599-600). -/
def recVfLoss (hp : SacHyper) (targetEntropy : ℚ) (nets : SacNetsRec)
    (s : SacState) (b : Batch) : ℚ :=
  mseLoss (recVPred hp nets s b)
    (List.zipWith (fun q lp => q - recAlpha hp targetEntropy nets s b * lp)
      (recQPred hp nets s b) (recAOut hp nets s b).logProbs)

/-- The actor loss of the recurrent `update_model` on its gated
invocations (`agent.py` lines 617-631). -/
def recActorLoss (hp : SacHyper) (targetEntropy : ℚ) (isDiscrete : Bool)
    (nets : SacNetsRec) (s : SacState) (b : Batch) : ℚ :=
  sac_actor_loss isDiscrete hp.W_MEAN_REG hp.W_STD_REG hp.W_PRE_ACTIVATION_REG
    (recAlpha hp targetEntropy nets s b)
    (recAOut hp nets s b).logProbs (recQPred hp nets s b) (recVPred hp nets s b)
    (recAOut hp nets s b).mus (recAOut hp nets s b).stds (recAOut hp nets s b).preTanh

/-- The seven recurrent forward calls of one `update_model` invocation, in
source order, each recording the `(hidden, cell)` pair passed to it:
actor resample (line 561), Q1 and Q2 on the stored actions (581, 583),
V-target on the next states (585), V on the states (592), Q1 and Q2 on the
resampled actions (594, 596).  Before every one of them the source
re-evaluates `self.actor.init_lstm_states(batch_size)`. -/
def recFwdTrace (hp : SacHyper) (nets : SacNetsRec) : List FwdCall :=
  [⟨NetId.actor, (recH0 nets hp.BATCH_SIZE).1, (recH0 nets hp.BATCH_SIZE).2⟩,
   ⟨NetId.qf1, (recH0 nets hp.BATCH_SIZE).1, (recH0 nets hp.BATCH_SIZE).2⟩,
   ⟨NetId.qf2, (recH0 nets hp.BATCH_SIZE).1, (recH0 nets hp.BATCH_SIZE).2⟩,
   ⟨NetId.vfTarget, (recH0 nets hp.BATCH_SIZE).1, (recH0 nets hp.BATCH_SIZE).2⟩,
   ⟨NetId.vf, (recH0 nets hp.BATCH_SIZE).1, (recH0 nets hp.BATCH_SIZE).2⟩,
   ⟨NetId.qf1, (recH0 nets hp.BATCH_SIZE).1, (recH0 nets hp.BATCH_SIZE).2⟩,
   ⟨NetId.qf2, (recH0 nets hp.BATCH_SIZE).1, (recH0 nets hp.BATCH_SIZE).2⟩]

/-- Embedding of `SACAgentLSTM.update_model` (`agent.py` lines 551-649).
Identical to the flat variant except that every approximator forward
threads a `(hidden, cell)` pair freshly re-initialized to zero by
`self.actor.init_lstm_states(batch_size)` immediately before the call;
the returned recurrent states are discarded.  The third component of the
result records those seven forward calls with their hidden-state
arguments. -/
def update_model_lstm (hp : SacHyper) (targetEntropy : ℚ) (isDiscrete : Bool)
    (nets : SacNetsRec) (s : SacState) (b : Batch) : SacState × Losses × List FwdCall :=
  let updateStep := s.updateStep + 1
  let ab := recAlphaBlock hp targetEntropy nets s b
  let qf1P2 := nets.qf1OptimStep s.qf1P (recQf1Loss hp nets s b)
  let qf2P2 := nets.qf2OptimStep s.qf2P (recQf2Loss hp nets s b)
  let vfP2 := nets.vfOptimStep s.vfP (recVfLoss hp targetEntropy nets s b)
  if updateStep % hp.POLICY_UPDATE_FREQ = 0 then
    let aLoss := recActorLoss hp targetEntropy isDiscrete nets s b
    (⟨nets.actorOptimStep s.actorP aLoss, vfP2,
      soft_update hp.TAU vfP2 s.vfTargetP, qf1P2, qf2P2, ab.2.1, updateStep⟩,
     ⟨aLoss, recQf1Loss hp nets s b, recQf2Loss hp nets s b,
      recVfLoss hp targetEntropy nets s b, ab.1⟩,
     recFwdTrace hp nets)
  else
    (⟨s.actorP, vfP2, s.vfTargetP, qf1P2, qf2P2, ab.2.1, updateStep⟩,
     ⟨0, recQf1Loss hp nets s b, recQf2Loss hp nets s b,
      recVfLoss hp targetEntropy nets s b, ab.1⟩,
     recFwdTrace hp nets)

/-- A transition as stored in the experience store:
`(curr_state, action, reward, next_state, done_bool)`. -/
structure Transition where
  state : Vec
  action : Vec
  reward : ℚ
  nextState : Vec
  done : Bool
deriving DecidableEq

/-- Embedding of the storing part of `SACAgent.step` (`agent.py` lines
144-156) and of the textually identical `SACAgentLSTM.step` (lines
533-545): outside test mode the transition is built with
`done_bool = False if self.episode_step == self.args.max_episode_steps
else done` and pushed to the memory; in test mode nothing is stored.
`episodeStep` is the value of the counter at the moment the transition is
built (the training loop increments it only after `step` returns). -/
def sac_step_stored (testMode : Bool) (currState : Vec)
    (episodeStep maxEpisodeSteps : ℕ) (action nextState : Vec)
    (reward : ℚ) (done : Bool) : Option Transition :=
  if testMode then none
  else
    some ⟨currState, action, reward, nextState,
      if episodeStep = maxEpisodeSteps then false else done⟩

/-- A value in the Python `hyper_params` dict: a number or a boolean. -/
inductive HPVal
  | num (q : ℚ)
  | flag (b : Bool)
deriving DecidableEq

/-- A Python dict of hyper-parameters, as an association list. -/
abbrev HyperDict := List (String × HPVal)

/-- Python `d[k]`: the value when the key is present, otherwise a
`KeyError` that propagates. -/
def dictItem (d : HyperDict) (k : String) : Except String HPVal :=
  match d.find? (fun p => p.1 = k) with
  | some p => Except.ok p.2
  | none => Except.error ("KeyError: " ++ k)

/-- Numeric view of a dict value (Python booleans are the numbers 0/1). -/
def HPVal.toQ : HPVal → ℚ
  | HPVal.num q => q
  | HPVal.flag b => if b then 1 else 0

/-- Natural-number view of a nonnegative integer dict value, used for
`range(...)` bounds. -/
def HPVal.toCount : HPVal → ℕ
  | HPVal.num q => q.num.toNat
  | HPVal.flag b => if b then 1 else 0

/-- Embedding of the learning trigger of the training loop (`agent.py`
lines 387-391 and the identical lines 789-793):
`if len(self.memory) >= self.hyper_params["BATCH_SIZE"] and
len(self.memory) >= self.hyper_params["PREFILL_BUFFER"]: for _ in
range(self.hyper_params["MULTIPLE_LEARN"]): self.update_model()`.
Dict lookups follow Python semantics: a missing key raises `KeyError`,
and the conjunction is evaluated left to right with short-circuiting.
Returns the number of `update_model` invocations (each of which is what
reaches `memory.sample()`) performed for this environment step. -/
def train_learn_block (hp : HyperDict) (memLen : ℕ) : Except String ℕ := do
  let bs ← dictItem hp ("BATCH_SIZE")
  if (memLen : ℚ) ≥ bs.toQ then
    let pf ← dictItem hp ("PREFILL_BUFFER")
    if (memLen : ℚ) ≥ pf.toQ then
      let ml ← dictItem hp ("MULTIPLE_LEARN")
      pure ml.toCount
    else
      pure 0
  else
    pure 0

/-- The `hyper_params` dict of `src/examples/torcs/sac-lstm.py` (lines
21-46), the configuration the repository constructs `SACAgentLSTM` with. -/
def sacLstmHyperParams : HyperDict :=
  [("GAMMA", HPVal.num (99 / 100)),
   ("TAU", HPVal.num (5 / 1000)),
   ("W_ENTROPY", HPVal.num (1 / 1000)),
   ("W_MEAN_REG", HPVal.num 0),
   ("W_STD_REG", HPVal.num 0),
   ("W_PRE_ACTIVATION_REG", HPVal.num 0),
   ("LR_ACTOR", HPVal.num (3 / 10000)),
   ("LR_VF", HPVal.num (3 / 10000)),
   ("LR_QF1", HPVal.num (3 / 10000)),
   ("LR_QF2", HPVal.num (3 / 10000)),
   ("LR_ENTROPY", HPVal.num (3 / 10000)),
   ("POLICY_UPDATE_FREQ", HPVal.num 2),
   ("BATCH_SIZE", HPVal.num 32),
   ("EPISODE_SIZE", HPVal.num 1000),
   ("STEP_SIZE", HPVal.num 16),
   ("AUTO_ENTROPY_TUNING", HPVal.flag true),
   ("WEIGHT_DECAY", HPVal.num 0),
   ("INITIAL_RANDOM_ACTION", HPVal.num 10000),
   ("PREFILL_BUFFER_LENGTH", HPVal.num 10000),
   ("MULTIPLE_LEARN", HPVal.num 1),
   ("BRAKE_REGION", HPVal.num 200000),
   ("BRAKE_DIST_MU", HPVal.num 100000),
   ("BRAKE_DIST_SIGMA", HPVal.num 30000),
   ("BRAKE_FACTOR", HPVal.num (1 / 10))]

/-- Opaque torch scalar functions used by the tanh-squashed Gaussian
policy head: elementwise log and tanh, and the Gaussian log-density
`Normal(mu, std).log_prob`. -/
structure DistOps where
  logFn : ℚ → ℚ
  tanhFn : ℚ → ℚ
  normalLogPdf : ℚ → ℚ → ℚ → ℚ

/-- The default of the `epsilon` keyword of
`TanhGaussianDistParams.forward`, `1e-6`. -/
def tanhGaussEpsDefault : ℚ := 1 / 1000000

/-- Embedding of `TanhGaussianDistParams.forward` (`network.py` lines
203-217) on one action vector; `z` is the reparameterized Gaussian sample
`dist.rsample()`.  Mirrors `action = torch.tanh(z)`,
`log_prob = dist.log_prob(z) - torch.log(1 - action.pow(2) + epsilon)`,
`log_prob = log_prob.sum(-1, keepdim=True)`; the keepdim sum makes the
returned log-probability a singleton list.  Returns
`(action, log_prob, z, mu, std)`. -/
def tanh_gaussian_forward (ops : DistOps) (mu std z : Vec) (epsilon : ℚ) :
    Vec × Vec × Vec × Vec × Vec :=
  let action := z.map ops.tanhFn
  let gauss := zip3With (fun m sd zi => ops.normalLogPdf m sd zi) mu std z
  let corr := action.map (fun a => ops.logFn (1 - a * a + epsilon))
  let logProb := [(List.zipWith (fun g c => g - c) gauss corr).sum]
  (action, logProb, z, mu, std)

/-- Embedding of `SACAgent.select_action` (`agent.py` lines 119-136).
The oracle inputs stand for the external randomness: `randomSample` is
`self.env.action_space.sample()` and `aOut` is the actor forward output
on the preprocessed state.  During training, while
`total_step < INITIAL_RANDOM_ACTION`, the env sample is returned; in test
mode with a continuous action space the fourth actor output (`mu`, the
mode of the policy Gaussian) is selected; otherwise the first output (the
sampled squashed action). -/
def select_action (testMode isDiscrete : Bool) (totalStep initialRandomAction : ℕ)
    (randomSample : Vec) (aOut : ActorOut) : Vec :=
  if totalStep < initialRandomAction ∧ testMode = false then randomSample
  else if testMode = true ∧ isDiscrete = false then aOut.mu
  else aOut.action

/-- Everything `load_params` can mutate: the network parameters and
`log_alpha` (a `SacState`), the optimizer states (opaque) and the agent
counters. -/
structure AgentPersist where
  nets : SacState
  optimState : Vec
  totalStep : ℕ
  episodeStep : ℕ
  updateStep : ℕ
  iEpisode : ℕ
deriving DecidableEq

/-- Embedding of `SACAgent.load_params` / `SACAgentLSTM.load_params`
(`agent.py` lines 251-271 and 651-671).  `fsExists` is
`os.path.exists`; `loadFn` is the opaque torch checkpoint
deserialization and `load_state_dict` application.  When the path does
not exist the function logs an error (the boolean flag) and returns with
the state untouched; otherwise the checkpoint is applied. -/
def load_params (fsExists : String → Bool)
    (loadFn : String → AgentPersist → AgentPersist)
    (agent : AgentPersist) (path : String) : AgentPersist × Bool :=
  if fsExists path = false then (agent, true)
  else (loadFn path agent, false)

/-- Embedding of the constructor checkpoint gate (`agent.py` lines 96-98
and 482-484): `if args.load_from is not None and
os.path.exists(args.load_from): self.load_params(args.load_from)`. -/
def init_load_gate (fsExists : String → Bool)
    (loadFn : String → AgentPersist → AgentPersist)
    (agent : AgentPersist) (loadFrom : Option String) : AgentPersist :=
  match loadFrom with
  | none => agent
  | some p => if fsExists p then (load_params fsExists loadFn agent p).1 else agent

/-- The loss fields of one per-episode log record, common to the console
line and the semicolon-delimited file line of `write_log`. -/
structure LogRec where
  totalLoss : ℚ
  actorLoss : ℚ
  qf1Loss : ℚ
  qf2Loss : ℚ
  vfLoss : ℚ
  alphaLoss : ℚ
deriving DecidableEq

/-- Embedding of the loss fields of `SACAgent.write_log` (`agent.py`
lines 292-342; `SACAgentLSTM.write_log`, lines 692-743, is textually
identical): `total_loss = loss.sum()`, the actor field is
`loss[0] * policy_update_freq` and the four remaining loss fields are
`loss[1] .. loss[4]` unscaled.  The first component models the console
`print` record, the second the file record; the source builds both from
the same expressions. -/
def write_log (loss : Losses) (policyUpdateFreq : ℚ) : LogRec × LogRec :=
  let total := loss.actor + loss.qf1 + loss.qf2 + loss.vf + loss.alpha
  (⟨total, loss.actor * policyUpdateFreq, loss.qf1, loss.qf2, loss.vf, loss.alpha⟩,
   ⟨total, loss.actor * policyUpdateFreq, loss.qf1, loss.qf2, loss.vf, loss.alpha⟩)

/-- Columnwise episode average `np.vstack(loss_episode).mean(axis=0)`
computed by `train` (`agent.py` line 395) before calling `write_log`. -/
def episode_avg (lossEpisode : List Losses) : Losses :=
  ⟨qmean (lossEpisode.map (·.actor)), qmean (lossEpisode.map (·.qf1)),
   qmean (lossEpisode.map (·.qf2)), qmean (lossEpisode.map (·.vf)),
   qmean (lossEpisode.map (·.alpha))⟩

/-- The per-episode logging call of `train` (`agent.py` lines 393-402):
`write_log` receives the episode-averaged losses and
`POLICY_UPDATE_FREQ`. -/
def train_episode_log (lossEpisode : List Losses) (policyUpdateFreq : ℚ) :
    LogRec × LogRec :=
  write_log (episode_avg lossEpisode) policyUpdateFreq

/-- A fresh zero hidden/cell tensor of the given flattened shape, the
value every recurrent forward call must receive. -/
def zeroHidden (lstmLayerSize batchSize lstmSize : ℕ) : Vec :=
  List.replicate (lstmLayerSize * batchSize * lstmSize) 0

/-- Concrete hyper-parameters for evaluating the embedding on closed
inputs: `POLICY_UPDATE_FREQ = 2`, auto entropy tuning off. -/
def exHyper : SacHyper :=
  ⟨99 / 100, 5 / 1000, 1 / 1000, 0, 0, 0, 2, false, 2, 1⟩

/-- Concrete flat collaborators for closed evaluations. -/
def exNets : SacNets :=
  ⟨fun p st => ⟨st.map (fun x => x / 2), p.sum + st.sum, st,
     st.map (fun x => x + 1), st.map (fun _ => 1)⟩,
   fun p st => p.sum + st.sum,
   fun p st => p.sum - st.sum,
   fun p st a => p.sum + st.sum + a.sum,
   fun p st a => p.sum + st.sum - a.sum,
   fun p l => p.map (fun x => x - l),
   fun p l => p.map (fun x => x - l),
   fun p l => p.map (fun x => x - l),
   fun p l => p.map (fun x => x - l),
   fun la l => la - l,
   fun x => 1 + x⟩

/-- Concrete recurrent collaborators for closed evaluations. -/
def exNetsRec : SacNetsRec :=
  ⟨1, 2,
   fun p sts _ _ hx cx => ⟨sts.map (fun st => st.map (fun x => x / 2)),
     sts.map (fun st => p.sum + st.sum + hx.sum), sts, sts,
     sts.map (fun st => st.map (fun _ => 1)), hx, cx⟩,
   fun p sts _ _ hx cx => (sts.map (fun st => p.sum + st.sum), hx, cx),
   fun p sts _ _ hx cx => (sts.map (fun st => p.sum - st.sum), hx, cx),
   fun p sts as _ _ hx cx =>
     (List.zipWith (fun st a => p.sum + st.sum + a.sum) sts as, hx, cx),
   fun p sts as _ _ hx cx =>
     (List.zipWith (fun st a => p.sum + st.sum - a.sum) sts as, hx, cx),
   fun p l => p.map (fun x => x - l),
   fun p l => p.map (fun x => x - l),
   fun p l => p.map (fun x => x - l),
   fun p l => p.map (fun x => x - l),
   fun la l => la - l,
   fun x => 1 + x⟩

/-- Concrete agent state with `update_step = 0`: the next invocation is
number 1, which `POLICY_UPDATE_FREQ = 2` skips. -/
def exState : SacState := ⟨[1], [2], [3], [4], [5], 0, 0⟩

/-- Concrete agent state with `update_step = 1`: the next invocation is
number 2, on which the policy step fires. -/
def exStateOdd : SacState := ⟨[1], [2], [3], [4], [5], 0, 1⟩

/-- Concrete two-row batch for closed evaluations. -/
def exBatch : Batch := ⟨[[1], [2]], [[1], [0]], [1, 2], [[2], [3]], [0, 1]⟩

/-- Concrete actor forward output for closed evaluations. -/
def exActorOut : ActorOut := ⟨[1 / 2], 2, [1], [0], [1]⟩

/-- Concrete persistent agent snapshot for closed evaluations. -/
def exAgent : AgentPersist := ⟨⟨[1], [2], [3], [4], [5], 0, 0⟩, [7], 1, 2, 3, 4⟩

/-- A concrete checkpoint application that visibly mutates the agent,
showing that `load_params` really skips it on a missing path. -/
def exLoadFn : String → AgentPersist → AgentPersist :=
  fun _ a => ⟨a.nets, a.optimState, a.totalStep + 1, a.episodeStep,
    a.updateStep, a.iEpisode⟩

/-- A concrete checkpoint path that the example filesystem lacks. -/
def exPath : String := "missing.pt"

lemma zip3With_map_last (f : α → β → γ → δ) (g : ε → γ) :
    ∀ (as : List α) (bs : List β) (cs : List ε),
      zip3With f as bs (cs.map g) = zip3With (fun a b c => f a b (g c)) as bs cs := by
  intro as
  induction as with
  | nil => intro bs cs; rfl
  | cons a as ih =>
    intro bs cs
    cases bs with
    | nil => rfl
    | cons b bs =>
      cases cs with
      | nil => rfl
      | cons c cs => simp [zip3With, ih]

lemma bootstrap_q_target_eq (gamma : ℚ) (rewards vTargetNext dones : List ℚ) :
    bootstrap_q_target gamma rewards vTargetNext dones
      = zip3With (fun r v d => r + gamma * v * (1 - d)) rewards vTargetNext dones := by
  unfold bootstrap_q_target
  exact zip3With_map_last _ _ rewards vTargetNext dones

lemma zipWith_sub_zip3With_map (f : α → β → γ → ℚ) (g : γ → ℚ) :
    ∀ (as : List α) (bs : List β) (cs : List γ),
      List.zipWith (fun x y => x - y) (zip3With f as bs cs) (cs.map g)
        = zip3With (fun a b c => f a b c - g c) as bs cs := by
  intro as
  induction as with
  | nil => intro bs cs; rfl
  | cons a as ih =>
    intro bs cs
    cases bs with
    | nil => cases cs <;> rfl
    | cons b bs =>
      cases cs with
      | nil => rfl
      | cons c cs => simp [zip3With, ih]

/-- C2: in training mode, the stored transition carries
`done_bool = false` whenever the episode-step counter equals
`max_episode_steps` at the moment the transition is built — even when the
raw environment `done` is true — and preserves the raw `done`
otherwise. -/
theorem truncation_done_rewrite (currState : Vec) (episodeStep maxEpisodeSteps : ℕ)
    (action nextState : Vec) (reward : ℚ) (done : Bool) :
    (episodeStep = maxEpisodeSteps →
      sac_step_stored false currState episodeStep maxEpisodeSteps action nextState reward done
        = some ⟨currState, action, reward, nextState, false⟩)
    ∧ (episodeStep ≠ maxEpisodeSteps →
      sac_step_stored false currState episodeStep maxEpisodeSteps action nextState reward done
        = some ⟨currState, action, reward, nextState, done⟩) := by
  constructor <;> intro h <;> simp [sac_step_stored, h]

/-- Closed instance of the truncation rule: at the step cap the raw
`done = true` is stored as `false`; one step earlier it is preserved. -/
theorem truncation_done_rewrite_witness :
    sac_step_stored false [1] 5 5 [0] [2] 3 true = some ⟨[1], [0], 3, [2], false⟩
    ∧ sac_step_stored false [1] 4 5 [0] [2] 3 true = some ⟨[1], [0], 3, [2], true⟩ :=
  ⟨(truncation_done_rewrite [1] 5 5 [0] [2] 3 true).1 rfl,
   (truncation_done_rewrite [1] 4 5 [0] [2] 3 true).2 (by decide)⟩

/-- C8: during training the initial warm-up window
(`total_step < INITIAL_RANDOM_ACTION`) returns the uniform environment
sample; after the window a training invocation returns the actor's
sampled action; in test mode on a continuous action space the actor's
`mu` — the mode of the policy Gaussian — is returned. -/
theorem select_action_modes (testMode isDiscrete : Bool)
    (totalStep initialRandomAction : ℕ) (randomSample : Vec) (aOut : ActorOut) :
    (testMode = false → totalStep < initialRandomAction →
      select_action testMode isDiscrete totalStep initialRandomAction randomSample aOut
        = randomSample)
    ∧ (testMode = false → ¬ totalStep < initialRandomAction →
      select_action testMode isDiscrete totalStep initialRandomAction randomSample aOut
        = aOut.action)
    ∧ (testMode = true → isDiscrete = false →
      select_action testMode isDiscrete totalStep initialRandomAction randomSample aOut
        = aOut.mu) := by
  refine ⟨?_, ?_, ?_⟩
  · intro ht hw
    simp [select_action, ht, hw]
  · intro ht hw
    simp [select_action, ht, hw]
  · intro ht hd
    simp [select_action, ht, hd]

/-- Closed instances of the three action-selection modes. -/
theorem select_action_modes_witness :
    select_action false false 3 10 [9] exActorOut = [9]
    ∧ select_action false false 10 10 [9] exActorOut = exActorOut.action
    ∧ select_action true false 3 10 [9] exActorOut = exActorOut.mu :=
  ⟨(select_action_modes false false 3 10 [9] exActorOut).1 rfl (by decide),
   (select_action_modes false false 10 10 [9] exActorOut).2.1 rfl (by decide),
   (select_action_modes true false 3 10 [9] exActorOut).2.2 rfl rfl⟩

/-- C9: calling `load_params` with a path missing from the filesystem
logs an error and returns normally, leaving the whole persistent agent
state (network parameters, optimizer state, counters) unchanged, and the
constructor gate never applies a checkpoint from a missing
`--load-from` path. -/
theorem load_params_missing_path (fsExists : String → Bool)
    (loadFn : String → AgentPersist → AgentPersist)
    (agent : AgentPersist) (path : String) (h : fsExists path = false) :
    load_params fsExists loadFn agent path = (agent, true)
    ∧ init_load_gate fsExists loadFn agent (some path) = agent
    ∧ init_load_gate fsExists loadFn agent none = agent := by
  refine ⟨?_, ?_, rfl⟩ <;> simp [load_params, init_load_gate, h]

/-- Closed instance: with an empty filesystem, loading from
`missing.pt` leaves the concrete agent untouched and flags the error,
even though the checkpoint application would visibly mutate it. -/
theorem load_params_missing_path_witness :
    load_params (fun _ => false) exLoadFn exAgent exPath = (exAgent, true)
    ∧ init_load_gate (fun _ => false) exLoadFn exAgent (some exPath) = exAgent
    ∧ exLoadFn exPath exAgent ≠ exAgent :=
  ⟨(load_params_missing_path (fun _ => false) exLoadFn exAgent exPath rfl).1,
   (load_params_missing_path (fun _ => false) exLoadFn exAgent exPath rfl).2.1,
   by decide⟩

/-- C10: in every per-episode log record — console and file line alike —
the actor-loss field is the episode-averaged actor loss multiplied by
`POLICY_UPDATE_FREQ`, while the qf_1, qf_2, vf and alpha fields are the
unscaled episode averages. -/
theorem write_log_actor_scaling (lossEpisode : List Losses) (policyUpdateFreq : ℚ) :
    (train_episode_log lossEpisode policyUpdateFreq).1.actorLoss
      = qmean (lossEpisode.map (·.actor)) * policyUpdateFreq
    ∧ (train_episode_log lossEpisode policyUpdateFreq).1.qf1Loss
      = qmean (lossEpisode.map (·.qf1))
    ∧ (train_episode_log lossEpisode policyUpdateFreq).1.qf2Loss
      = qmean (lossEpisode.map (·.qf2))
    ∧ (train_episode_log lossEpisode policyUpdateFreq).1.vfLoss
      = qmean (lossEpisode.map (·.vf))
    ∧ (train_episode_log lossEpisode policyUpdateFreq).1.alphaLoss
      = qmean (lossEpisode.map (·.alpha))
    ∧ (train_episode_log lossEpisode policyUpdateFreq).2
      = (train_episode_log lossEpisode policyUpdateFreq).1 :=
  ⟨rfl, rfl, rfl, rfl, rfl, rfl⟩

/-- C1: in both `update_model` variants the actor gradient step and the
soft update of the V-target run exactly on invocations whose
post-increment `update_step` is divisible by `POLICY_UPDATE_FREQ`; on
every other invocation the actor parameters and the V-target parameters
are unchanged and the returned actor loss is exactly 0.  On gated
invocations the actor optimizer receives the actor loss and the V-target
becomes the soft update of the freshly stepped V parameters. -/
theorem policy_delay_gate (hp : SacHyper) (targetEntropy : ℚ) (isDiscrete : Bool)
    (nets : SacNets) (s : SacState) (b : Batch)
    (netsR : SacNetsRec) (sr : SacState) (br : Batch) :
    ((s.updateStep + 1) % hp.POLICY_UPDATE_FREQ ≠ 0 →
      (update_model hp targetEntropy isDiscrete nets s b).1.actorP = s.actorP
      ∧ (update_model hp targetEntropy isDiscrete nets s b).1.vfTargetP = s.vfTargetP
      ∧ (update_model hp targetEntropy isDiscrete nets s b).2.actor = 0)
    ∧ ((s.updateStep + 1) % hp.POLICY_UPDATE_FREQ = 0 →
      (update_model hp targetEntropy isDiscrete nets s b).1.actorP
        = nets.actorOptimStep s.actorP (flatActorLoss hp targetEntropy isDiscrete nets s b)
      ∧ (update_model hp targetEntropy isDiscrete nets s b).1.vfTargetP
        = soft_update hp.TAU
            (nets.vfOptimStep s.vfP (flatVfLoss hp targetEntropy nets s b)) s.vfTargetP)
    ∧ ((sr.updateStep + 1) % hp.POLICY_UPDATE_FREQ ≠ 0 →
      (update_model_lstm hp targetEntropy isDiscrete netsR sr br).1.actorP = sr.actorP
      ∧ (update_model_lstm hp targetEntropy isDiscrete netsR sr br).1.vfTargetP = sr.vfTargetP
      ∧ (update_model_lstm hp targetEntropy isDiscrete netsR sr br).2.1.actor = 0)
    ∧ ((sr.updateStep + 1) % hp.POLICY_UPDATE_FREQ = 0 →
      (update_model_lstm hp targetEntropy isDiscrete netsR sr br).1.actorP
        = netsR.actorOptimStep sr.actorP (recActorLoss hp targetEntropy isDiscrete netsR sr br)
      ∧ (update_model_lstm hp targetEntropy isDiscrete netsR sr br).1.vfTargetP
        = soft_update hp.TAU
            (netsR.vfOptimStep sr.vfP (recVfLoss hp targetEntropy netsR sr br)) sr.vfTargetP) := by
  refine ⟨?_, ?_, ?_, ?_⟩
  · intro h
    simp [update_model, h]
  · intro h
    simp [update_model, h]
  · intro h
    simp [update_model_lstm, h]
  · intro h
    simp [update_model_lstm, h]

/-- Closed instances of the delayed policy step, for both variants: with
`POLICY_UPDATE_FREQ = 2` invocation 1 skips the actor and the target
sync, invocation 2 performs both. -/
theorem policy_delay_gate_witness :
    ((update_model exHyper 0 false exNets exState exBatch).1.actorP = exState.actorP
     ∧ (update_model exHyper 0 false exNets exState exBatch).1.vfTargetP = exState.vfTargetP
     ∧ (update_model exHyper 0 false exNets exState exBatch).2.actor = 0)
    ∧ ((update_model exHyper 0 false exNets exStateOdd exBatch).1.actorP
        = exNets.actorOptimStep exStateOdd.actorP
            (flatActorLoss exHyper 0 false exNets exStateOdd exBatch)
       ∧ (update_model exHyper 0 false exNets exStateOdd exBatch).1.vfTargetP
        = soft_update exHyper.TAU
            (exNets.vfOptimStep exStateOdd.vfP (flatVfLoss exHyper 0 exNets exStateOdd exBatch))
            exStateOdd.vfTargetP)
    ∧ ((update_model_lstm exHyper 0 false exNetsRec exState exBatch).1.actorP = exState.actorP
       ∧ (update_model_lstm exHyper 0 false exNetsRec exState exBatch).1.vfTargetP
          = exState.vfTargetP
       ∧ (update_model_lstm exHyper 0 false exNetsRec exState exBatch).2.1.actor = 0)
    ∧ ((update_model_lstm exHyper 0 false exNetsRec exStateOdd exBatch).1.actorP
        = exNetsRec.actorOptimStep exStateOdd.actorP
            (recActorLoss exHyper 0 false exNetsRec exStateOdd exBatch)
       ∧ (update_model_lstm exHyper 0 false exNetsRec exStateOdd exBatch).1.vfTargetP
        = soft_update exHyper.TAU
            (exNetsRec.vfOptimStep exStateOdd.vfP (recVfLoss exHyper 0 exNetsRec exStateOdd exBatch))
            exStateOdd.vfTargetP) :=
  ⟨(policy_delay_gate exHyper 0 false exNets exState exBatch exNetsRec exState exBatch).1
      (by decide),
   (policy_delay_gate exHyper 0 false exNets exStateOdd exBatch exNetsRec exStateOdd exBatch).2.1
      (by decide),
   (policy_delay_gate exHyper 0 false exNets exState exBatch exNetsRec exState exBatch).2.2.1
      (by decide),
   (policy_delay_gate exHyper 0 false exNets exStateOdd exBatch exNetsRec exStateOdd exBatch).2.2.2
      (by decide)⟩

/-- C4: in both `update_model` variants each of the twin Q losses is the
mean-squared error between that critic's prediction on the stored actions
and the bootstrap target `reward + GAMMA * vf_target(next_state) * (1 -
done)` (detaching a tensor leaves its value unchanged), and each Q critic
is stepped by its own optimizer with its own loss on every invocation. -/
theorem q_critic_target_and_steps (hp : SacHyper) (targetEntropy : ℚ)
    (isDiscrete : Bool) (nets : SacNets) (s : SacState) (b : Batch)
    (netsR : SacNetsRec) (sr : SacState) (br : Batch) :
    (update_model hp targetEntropy isDiscrete nets s b).2.qf1
      = mseLoss (List.zipWith (nets.qf1Fwd s.qf1P) b.states b.actions)
          (zip3With (fun r v d => r + hp.GAMMA * v * (1 - d)) b.rewards
            (b.nextStates.map (nets.vfTargetFwd s.vfTargetP)) b.dones)
    ∧ (update_model hp targetEntropy isDiscrete nets s b).2.qf2
      = mseLoss (List.zipWith (nets.qf2Fwd s.qf2P) b.states b.actions)
          (zip3With (fun r v d => r + hp.GAMMA * v * (1 - d)) b.rewards
            (b.nextStates.map (nets.vfTargetFwd s.vfTargetP)) b.dones)
    ∧ (update_model hp targetEntropy isDiscrete nets s b).1.qf1P
      = nets.qf1OptimStep s.qf1P ((update_model hp targetEntropy isDiscrete nets s b).2.qf1)
    ∧ (update_model hp targetEntropy isDiscrete nets s b).1.qf2P
      = nets.qf2OptimStep s.qf2P ((update_model hp targetEntropy isDiscrete nets s b).2.qf2)
    ∧ (update_model_lstm hp targetEntropy isDiscrete netsR sr br).2.1.qf1
      = mseLoss
          ((netsR.qf1Fwd sr.qf1P br.states br.actions hp.BATCH_SIZE hp.STEP_SIZE
            (recH0 netsR hp.BATCH_SIZE).1 (recH0 netsR hp.BATCH_SIZE).2).1)
          (zip3With (fun r v d => r + hp.GAMMA * v * (1 - d)) br.rewards
            ((netsR.vfTargetFwd sr.vfTargetP br.nextStates hp.BATCH_SIZE hp.STEP_SIZE
              (recH0 netsR hp.BATCH_SIZE).1 (recH0 netsR hp.BATCH_SIZE).2).1) br.dones)
    ∧ (update_model_lstm hp targetEntropy isDiscrete netsR sr br).2.1.qf2
      = mseLoss
          ((netsR.qf2Fwd sr.qf2P br.states br.actions hp.BATCH_SIZE hp.STEP_SIZE
            (recH0 netsR hp.BATCH_SIZE).1 (recH0 netsR hp.BATCH_SIZE).2).1)
          (zip3With (fun r v d => r + hp.GAMMA * v * (1 - d)) br.rewards
            ((netsR.vfTargetFwd sr.vfTargetP br.nextStates hp.BATCH_SIZE hp.STEP_SIZE
              (recH0 netsR hp.BATCH_SIZE).1 (recH0 netsR hp.BATCH_SIZE).2).1) br.dones)
    ∧ (update_model_lstm hp targetEntropy isDiscrete netsR sr br).1.qf1P
      = netsR.qf1OptimStep sr.qf1P
          ((update_model_lstm hp targetEntropy isDiscrete netsR sr br).2.1.qf1)
    ∧ (update_model_lstm hp targetEntropy isDiscrete netsR sr br).1.qf2P
      = netsR.qf2OptimStep sr.qf2P
          ((update_model_lstm hp targetEntropy isDiscrete netsR sr br).2.1.qf2) := by
  refine ⟨?_, ?_, ?_, ?_, ?_, ?_, ?_, ?_⟩
  · by_cases h : (s.updateStep + 1) % hp.POLICY_UPDATE_FREQ = 0 <;>
      simp [update_model, h, flatQf1Loss, flatQ1Pred, flatQTarget,
        flatVTargetNext, bootstrap_q_target_eq]
  · by_cases h : (s.updateStep + 1) % hp.POLICY_UPDATE_FREQ = 0 <;>
      simp [update_model, h, flatQf2Loss, flatQ2Pred, flatQTarget,
        flatVTargetNext, bootstrap_q_target_eq]
  · by_cases h : (s.updateStep + 1) % hp.POLICY_UPDATE_FREQ = 0 <;>
      simp [update_model, h]
  · by_cases h : (s.updateStep + 1) % hp.POLICY_UPDATE_FREQ = 0 <;>
      simp [update_model, h]
  · by_cases h : (sr.updateStep + 1) % hp.POLICY_UPDATE_FREQ = 0 <;>
      simp [update_model_lstm, h, recQf1Loss, recQ1Pred, recQTarget,
        recVTargetNext, bootstrap_q_target_eq]
  · by_cases h : (sr.updateStep + 1) % hp.POLICY_UPDATE_FREQ = 0 <;>
      simp [update_model_lstm, h, recQf2Loss, recQ2Pred, recQTarget,
        recVTargetNext, bootstrap_q_target_eq]
  · by_cases h : (sr.updateStep + 1) % hp.POLICY_UPDATE_FREQ = 0 <;>
      simp [update_model_lstm, h]
  · by_cases h : (sr.updateStep + 1) % hp.POLICY_UPDATE_FREQ = 0 <;>
      simp [update_model_lstm, h]

lemma update_model_logAlpha_const (hp : SacHyper) (targetEntropy : ℚ)
    (isDiscrete : Bool) (nets : SacNets) (s : SacState) (b : Batch)
    (h : hp.AUTO_ENTROPY_TUNING = false) :
    (update_model hp targetEntropy isDiscrete nets s b).1.logAlpha = s.logAlpha := by
  by_cases hg : (s.updateStep + 1) % hp.POLICY_UPDATE_FREQ = 0 <;>
    simp [update_model, flatAlphaBlock, sac_alpha_block, h, hg]

/-- C6: with auto entropy tuning disabled, the coefficient alpha used by
the value and actor losses is the fixed `W_ENTROPY` on every invocation,
the reported alpha loss is `0`, and `log_alpha` never changes across any
sequence of `update_model` invocations. -/
theorem fixed_alpha_invariant (hp : SacHyper) (targetEntropy : ℚ)
    (isDiscrete : Bool) (nets : SacNets) (s : SacState) (b : Batch)
    (batches : List Batch) (h : hp.AUTO_ENTROPY_TUNING = false) :
    flatAlpha hp targetEntropy nets s b = hp.W_ENTROPY
    ∧ (update_model hp targetEntropy isDiscrete nets s b).2.alpha = 0
    ∧ (update_model hp targetEntropy isDiscrete nets s b).1.logAlpha = s.logAlpha
    ∧ (update_model hp targetEntropy isDiscrete nets s b).2.vf
        = mseLoss (flatVPred nets s b)
            (List.zipWith (fun q lp => q - hp.W_ENTROPY * lp)
              (flatQPred nets s b) (flatLogProbs nets s b))
    ∧ (update_model_iter hp targetEntropy isDiscrete nets s batches).logAlpha
        = s.logAlpha := by
  refine ⟨?_, ?_, ?_, ?_, ?_⟩
  · simp [flatAlpha, flatAlphaBlock, sac_alpha_block, h]
  · by_cases hg : (s.updateStep + 1) % hp.POLICY_UPDATE_FREQ = 0 <;>
      simp [update_model, flatAlphaBlock, sac_alpha_block, h, hg]
  · exact update_model_logAlpha_const hp targetEntropy isDiscrete nets s b h
  · by_cases hg : (s.updateStep + 1) % hp.POLICY_UPDATE_FREQ = 0 <;>
      simp [update_model, flatVfLoss, flatAlpha, flatAlphaBlock, sac_alpha_block, h, hg]
  · induction batches generalizing s with
    | nil => rfl
    | cons b2 bs ih =>
      rw [update_model_iter, ih]
      exact update_model_logAlpha_const hp targetEntropy isDiscrete nets s b2 h

/-- Closed instance of the fixed-alpha invariant on the concrete
configuration with tuning disabled, over two consecutive invocations. -/
theorem fixed_alpha_invariant_witness :
    flatAlpha exHyper 0 exNets exState exBatch = exHyper.W_ENTROPY
    ∧ (update_model exHyper 0 false exNets exState exBatch).2.alpha = 0
    ∧ (update_model exHyper 0 false exNets exState exBatch).1.logAlpha = exState.logAlpha
    ∧ (update_model_iter exHyper 0 false exNets exState [exBatch, exBatch]).logAlpha
        = exState.logAlpha :=
  ⟨(fixed_alpha_invariant exHyper 0 false exNets exState exBatch [exBatch, exBatch] rfl).1,
   (fixed_alpha_invariant exHyper 0 false exNets exState exBatch [exBatch, exBatch] rfl).2.1,
   (fixed_alpha_invariant exHyper 0 false exNets exState exBatch [exBatch, exBatch] rfl).2.2.1,
   (fixed_alpha_invariant exHyper 0 false exNets exState exBatch [exBatch, exBatch] rfl).2.2.2.2⟩

/-- C7: every one of the seven approximator forward calls of the
recurrent `update_model` — actor resample, Q1 and Q2 on the stored
actions, V-target on the next states, V on the states, Q1 and Q2 on the
resampled actions, in that order — receives a `(hidden, cell)` pair
freshly re-initialized to zero immediately before the call; no carried
recurrent state is shared between them. -/
theorem lstm_zero_hidden_states (hp : SacHyper) (targetEntropy : ℚ)
    (isDiscrete : Bool) (netsR : SacNetsRec) (sr : SacState) (br : Batch) :
    (update_model_lstm hp targetEntropy isDiscrete netsR sr br).2.2
      = [⟨NetId.actor, zeroHidden netsR.lstmLayerSize hp.BATCH_SIZE netsR.lstmSize,
            zeroHidden netsR.lstmLayerSize hp.BATCH_SIZE netsR.lstmSize⟩,
         ⟨NetId.qf1, zeroHidden netsR.lstmLayerSize hp.BATCH_SIZE netsR.lstmSize,
            zeroHidden netsR.lstmLayerSize hp.BATCH_SIZE netsR.lstmSize⟩,
         ⟨NetId.qf2, zeroHidden netsR.lstmLayerSize hp.BATCH_SIZE netsR.lstmSize,
            zeroHidden netsR.lstmLayerSize hp.BATCH_SIZE netsR.lstmSize⟩,
         ⟨NetId.vfTarget, zeroHidden netsR.lstmLayerSize hp.BATCH_SIZE netsR.lstmSize,
            zeroHidden netsR.lstmLayerSize hp.BATCH_SIZE netsR.lstmSize⟩,
         ⟨NetId.vf, zeroHidden netsR.lstmLayerSize hp.BATCH_SIZE netsR.lstmSize,
            zeroHidden netsR.lstmLayerSize hp.BATCH_SIZE netsR.lstmSize⟩,
         ⟨NetId.qf1, zeroHidden netsR.lstmLayerSize hp.BATCH_SIZE netsR.lstmSize,
            zeroHidden netsR.lstmLayerSize hp.BATCH_SIZE netsR.lstmSize⟩,
         ⟨NetId.qf2, zeroHidden netsR.lstmLayerSize hp.BATCH_SIZE netsR.lstmSize,
            zeroHidden netsR.lstmLayerSize hp.BATCH_SIZE netsR.lstmSize⟩] := by
  by_cases hg : (sr.updateStep + 1) % hp.POLICY_UPDATE_FREQ = 0 <;>
    simp [update_model_lstm, recFwdTrace, recH0, init_lstm_states, zeroHidden, hg]

/-- C5: the log-probability returned by `TanhGaussianDistParams.forward`
is the Gaussian log-density of the pre-tanh sample `z` minus
`log(1 - tanh(z)^2 + epsilon)` with the default `epsilon = 1e-6`, summed
over the action dimension while keeping a singleton trailing
dimension. -/
theorem tanh_log_prob_correction (ops : DistOps) (mu std z : Vec) :
    (tanh_gaussian_forward ops mu std z tanhGaussEpsDefault).2.1
      = [(zip3With (fun m sd zi => ops.normalLogPdf m sd zi
            - ops.logFn (1 - ops.tanhFn zi * ops.tanhFn zi + 1 / 1000000)) mu std z).sum]
    ∧ (tanh_gaussian_forward ops mu std z tanhGaussEpsDefault).2.1.length = 1 := by
  constructor
  · simp only [tanh_gaussian_forward, List.map_map]
    rw [zipWith_sub_zip3With_map]
    simp [Function.comp, tanhGaussEpsDefault]
  · simp [tanh_gaussian_forward]

/-- C3 (code-bug evidence): the configuration the repository ships for
the SAC agent (`sac-lstm.py`) stores the prefill threshold under the key
`PREFILL_BUFFER_LENGTH`, but the training-loop gate reads
`PREFILL_BUFFER`.  With that configuration, on the first environment step
where the store occupancy reaches `BATCH_SIZE = 32` — here occupancy
10000, which also clears the configured threshold 10000 — the gate raises
`KeyError: PREFILL_BUFFER` and performs no `update_model` invocation at
all, instead of performing `MULTIPLE_LEARN = 1` of them; below
`BATCH_SIZE` the short-circuited conjunction returns without error and
without sampling. -/
theorem prefill_key_error :
    dictItem sacLstmHyperParams ("PREFILL_BUFFER_LENGTH") = Except.ok (HPVal.num 10000)
    ∧ dictItem sacLstmHyperParams ("BATCH_SIZE") = Except.ok (HPVal.num 32)
    ∧ dictItem sacLstmHyperParams ("MULTIPLE_LEARN") = Except.ok (HPVal.num 1)
    ∧ train_learn_block sacLstmHyperParams 10000
        = Except.error ("KeyError: PREFILL_BUFFER")
    ∧ train_learn_block sacLstmHyperParams 31 = Except.ok 0 := by
  exact ⟨rfl, rfl, rfl, rfl, rfl⟩
